import Mathlib

/-!
Verification of the scripted chat widget of the portfolio site.

The development shallowly embeds the `PortfolioChatbot` class of
`script.js` (lines 879-1242): the static knowledge base, the
keyword-matching responder `processMessage`, the transcript operations
`addMessage` / `sendMessage` / `handleQuickReply`, and the widget-level
open/close/badge state machine driven by UI events.

Strings are modelled by Lean `String` (a list of characters).  The
JavaScript primitives used by the source are embedded structurally:
`jsToLower` maps ASCII upper-case letters to lower case (the keywords
and the inputs of interest are ASCII), `jsIncludes` is contiguous
substring containment as `String.prototype.includes`, and `jsTrim`
drops ASCII whitespace from both ends as `String.prototype.trim`.
-/

namespace Portfolio

/-- Record of contact details, `knowledgeBase.contact` in `script.js`. -/
structure Contact where
  email : String
  phone : String
  location : String
  linkedin : String
  github : String
deriving Repr, DecidableEq

/-- One project entry of `knowledgeBase.projects`. -/
structure Project where
  name : String
  description : String
  link : String
deriving Repr, DecidableEq

/-- Shape of `this.knowledgeBase` set once in the constructor. -/
structure KnowledgeBase where
  contact : Contact
  skills : List String
  projects : List Project
  experience : String
  education : String
  certifications : List String
deriving Repr, DecidableEq

/-- The literal knowledge base assigned in the constructor
(`script.js` lines 892-941). -/
def knowledgeBase : KnowledgeBase :=
  { contact :=
      { email := "sibabalod@gmail.com"
        phone := "0799199415"
        location := "Cape Town, South Africa"
        linkedin := "https://www.linkedin.com/in/sibabalwe-dyantyi-258b41125"
        github := "https://github.com/siba2623" }
    skills :=
      [ "Full-Stack Development"
      , "AI & Machine Learning"
      , "Prompt Engineering"
      , "Data Analytics"
      , "Frontend: HTML, CSS, JavaScript, React"
      , "Backend: Node.js, Python"
      , "Cybersecurity"
      , "Data Visualization" ]
    projects :=
      [ { name := "AI Chatbot Platform"
          description := "Intelligent chatbot with NLP capabilities"
          link := "https://app--synapse-ai-03ae5851.base44.app/Chat" }
      , { name := "GetItDone NGO Website"
          description := "Community development and social impact website"
          link := "https://a1getitdone.netlify.app" }
      , { name := "Data Visualization Dashboard"
          description := "Interactive Tableau dashboard for business insights"
          link := "https://public.tableau.com/app/profile/sibabalwe.dyantyi/viz/Groceriesdata/Dashboard13" }
      , { name := "Soil Analyzer Dashboard"
          description := "Sustainable agriculture tool"
          link := "https://www.figma.com/proto/HIhUfBOLKg3N81VxhaVmqC/Soil-Analyzer" } ]
    experience := "3+ years in full-stack development with focus on AI and data analytics"
    education := "PPE at University of Cape Town, IT Support, Data Analytics, and Cybersecurity training"
    certifications :=
      [ "Google Cybersecurity Certificate"
      , "IBM Data Analytics Certificate"
      , "IBM Data Science Professional Certificate"
      , "IT Specialist Certificate"
      , "SANCS 2025 Participation Certificate" ] }

/-- A quick-reply button object `{text, action}`. -/
structure QuickReply where
  text : String
  action : String
deriving Repr, DecidableEq

/-- Return value of `processMessage`: a reply text together with the
quick-reply buttons (an `Option` because `addMessage` accepts `null`;
every branch of `processMessage` produces `some` buttons). -/
structure Response where
  text : String
  quickReplies : Option (List QuickReply)
deriving Repr, DecidableEq

/-- The `sender` argument of `addMessage`. -/
inductive Sender where
  | user
  | bot
deriving Repr, DecidableEq

/-- One transcript entry rendered by `addMessage`. -/
structure Message where
  text : String
  sender : Sender
  quickReplies : Option (List QuickReply)
deriving Repr, DecidableEq

/-- Mutable fields of the `PortfolioChatbot` instance: the `isOpen` and
`hasInteracted` flags, the badge visibility (`chatbotBadge.style.display`),
the transcript children of `chatbotMessages`, the text of the input
field, and `this.knowledgeBase`. -/
structure ChatbotState where
  isOpen : Bool
  hasInteracted : Bool
  badgeVisible : Bool
  messages : List Message
  inputValue : String
  knowledgeBase : KnowledgeBase
deriving Repr, DecidableEq

/-- State after the constructor runs (`script.js` lines 880-944). -/
def initState : ChatbotState :=
  { isOpen := false
    hasInteracted := false
    badgeVisible := false
    messages := []
    inputValue := ""
    knowledgeBase := knowledgeBase }

/-- Embedding of `message.toLowerCase()` restricted to ASCII: each
character is lowered by `Char.toLower` (identity above the basic latin
letters). -/
def jsToLower (s : String) : String :=
  ⟨s.data.map Char.toLower⟩

/-- Does the pattern occur at the head of the character list? -/
def matchesAt : List Char → List Char → Bool
  | [], _ => true
  | _ :: _, [] => false
  | p :: ps, c :: cs => p == c && matchesAt ps cs

/-- Does the pattern occur contiguously anywhere in the list? -/
def includesAux (pat : List Char) : List Char → Bool
  | [] => matchesAt pat []
  | c :: cs => matchesAt pat (c :: cs) || includesAux pat cs

/-- Embedding of `s.includes(pat)`: contiguous substring containment. -/
def jsIncludes (s pat : String) : Bool :=
  includesAux pat.data s.data

/-- ASCII whitespace, the characters `trim` strips that can appear in a
single-line text input. -/
def isWhitespaceChar (c : Char) : Bool :=
  c == ' ' || c == '\t' || c == '\n' || c == '\r'

/-- Embedding of `s.trim()`: drop whitespace from both ends. -/
def jsTrim (s : String) : String :=
  ⟨((s.data.dropWhile isWhitespaceChar).reverse.dropWhile isWhitespaceChar).reverse⟩

/-- Rule-1 reply (contact card), `script.js` lines 1080-1092. -/
def contactResponse (s : ChatbotState) : Response :=
  { text := "You can reach Sibabalwe at:<br><br>\n                 📧 Email: <strong>"
      ++ s.knowledgeBase.contact.email
      ++ "</strong><br>\n                 📱 Phone: <strong>"
      ++ s.knowledgeBase.contact.phone
      ++ "</strong><br>\n                 📍 Location: "
      ++ s.knowledgeBase.contact.location
      ++ "<br><br>\n                 Feel free to use the contact form on this page or reach out directly!"
    quickReplies := some
      [ { text := "View Projects", action := "projects" }
      , { text := "Skills", action := "skills" } ] }

/-- Rule-2 reply (phone number), `script.js` lines 1095-1104. -/
def phoneResponse (s : ChatbotState) : Response :=
  { text := "You can call Sibabalwe at: <strong>"
      ++ s.knowledgeBase.contact.phone
      ++ "</strong><br><br>\n                 Or email at: "
      ++ s.knowledgeBase.contact.email
    quickReplies := some
      [ { text := "View Projects", action := "projects" }
      , { text := "More Info", action := "about" } ] }

/-- Rule-3 reply (skills list), `script.js` lines 1107-1117. -/
def skillsResponse (s : ChatbotState) : Response :=
  let skillsList := String.intercalate "<br>"
    (s.knowledgeBase.skills.map (fun skill => "• " ++ skill))
  { text := "Sibabalwe\x27s key skills include:<br><br>"
      ++ skillsList
      ++ "<br><br>\n                 With "
      ++ s.knowledgeBase.experience
      ++ "."
    quickReplies := some
      [ { text := "View Projects", action := "projects" }
      , { text := "Contact Info", action := "contact" } ] }

/-- Rule-4 reply (project list), `script.js` lines 1120-1132. -/
def projectsResponse (s : ChatbotState) : Response :=
  let projectsList := String.intercalate "<br><br>"
    (s.knowledgeBase.projects.map (fun project =>
      "<strong>" ++ project.name ++ "</strong>: " ++ project.description))
  { text := "Here are some featured projects:<br><br>"
      ++ projectsList
      ++ "<br><br>\n                 Scroll down to the Projects section to see more details and live demos!"
    quickReplies := some
      [ { text := "Contact Info", action := "contact" }
      , { text := "Skills", action := "skills" } ] }

/-- Rule-5 reply (certification list), `script.js` lines 1135-1145. -/
def certificationsResponse (s : ChatbotState) : Response :=
  let certsList := String.intercalate "<br>"
    (s.knowledgeBase.certifications.map (fun cert => "• " ++ cert))
  { text := "Sibabalwe holds the following professional certifications:<br><br>"
      ++ certsList
      ++ "<br><br>\n                 Scroll down to the Certifications section to view and download certificates!"
    quickReplies := some
      [ { text := "View Projects", action := "projects" }
      , { text := "Contact Info", action := "contact" } ] }

/-- Rule-6 reply (experience and education), `script.js` lines 1148-1159. -/
def experienceResponse (s : ChatbotState) : Response :=
  { text := "Sibabalwe is a passionate full-stack developer with "
      ++ s.knowledgeBase.experience
      ++ ".<br><br>\n                 <strong>Education:</strong> "
      ++ s.knowledgeBase.education
      ++ "<br><br>\n                 He specializes in creating innovative solutions that bridge complex technology with user needs."
    quickReplies := some
      [ { text := "View Projects", action := "projects" }
      , { text := "Certifications", action := "certifications" }
      , { text := "Contact Info", action := "contact" } ] }

/-- Rule-7 reply (availability pitch), `script.js` lines 1162-1174. -/
def hireResponse (s : ChatbotState) : Response :=
  { text := "Sibabalwe is open to new opportunities! 🎉<br><br>\n                 For project inquiries or collaboration:<br>\n                 📧 "
      ++ s.knowledgeBase.contact.email
      ++ "<br>\n                 📱 "
      ++ s.knowledgeBase.contact.phone
      ++ "<br><br>\n                 You can also fill out the contact form on this page."
    quickReplies := some
      [ { text := "View Projects", action := "projects" }
      , { text := "Skills", action := "skills" } ] }

/-- Rule-8 reply (greeting), `script.js` lines 1177-1186. -/
def greetingResponse (_s : ChatbotState) : Response :=
  { text := "Hello! 👋 I\x27m here to help you learn more about Sibabalwe\x27s work and experience. What would you like to know?"
    quickReplies := some
      [ { text := "Contact Info", action := "contact" }
      , { text := "Skills", action := "skills" }
      , { text := "Projects", action := "projects" } ] }

/-- Fallback reply (capability menu), `script.js` lines 1189-1202. -/
def defaultResponse (_s : ChatbotState) : Response :=
  { text := "I can help you with information about:<br><br>\n               • Contact details (email, phone)<br>\n               • Skills and experience<br>\n               • Professional certifications<br>\n               • Projects and portfolio<br>\n               • Availability for hire<br><br>\n               What would you like to know?"
    quickReplies := some
      [ { text := "Contact Info", action := "contact" }
      , { text := "Certifications", action := "certifications" }
      , { text := "Projects", action := "projects" } ] }

/-- Embedding of `processMessage` (`script.js` lines 1076-1203): lower
the input and walk the fixed chain of keyword substring checks;
the first matching branch returns. -/
def processMessage (s : ChatbotState) (message : String) : Response :=
  let lowerMessage := jsToLower message
  if jsIncludes lowerMessage "email" || jsIncludes lowerMessage "contact" || jsIncludes lowerMessage "reach" then
    contactResponse s
  else if jsIncludes lowerMessage "phone" || jsIncludes lowerMessage "call" || jsIncludes lowerMessage "number" then
    phoneResponse s
  else if jsIncludes lowerMessage "skill" || jsIncludes lowerMessage "technology" || jsIncludes lowerMessage "tech stack" then
    skillsResponse s
  else if jsIncludes lowerMessage "project" || jsIncludes lowerMessage "work" || jsIncludes lowerMessage "portfolio" then
    projectsResponse s
  else if jsIncludes lowerMessage "certificate" || jsIncludes lowerMessage "certification" || jsIncludes lowerMessage "credential" then
    certificationsResponse s
  else if jsIncludes lowerMessage "experience" || jsIncludes lowerMessage "background" || jsIncludes lowerMessage "about" then
    experienceResponse s
  else if jsIncludes lowerMessage "hire" || jsIncludes lowerMessage "available" || jsIncludes lowerMessage "freelance" then
    hireResponse s
  else if jsIncludes lowerMessage "hello" || jsIncludes lowerMessage "hi" || jsIncludes lowerMessage "hey" then
    greetingResponse s
  else
    defaultResponse s

/-- Embedding of `addMessage` (`script.js` lines 1018-1048): append one
transcript entry. -/
def addMessage (text : String) (sender : Sender)
    (quickReplies : Option (List QuickReply)) (s : ChatbotState) : ChatbotState :=
  { s with messages := s.messages ++ [{ text := text, sender := sender, quickReplies := quickReplies }] }

/-- Embedding of `sendMessage` (`script.js` lines 1000-1016) including
the bot reply appended when the typing timer fires: trim the input,
return unchanged on blank input, otherwise append the user message,
clear the input, and append the matched bot response. -/
def sendMessage (s : ChatbotState) : ChatbotState :=
  let message := jsTrim s.inputValue
  if message = "" then s
  else
    let s1 := addMessage message Sender.user none s
    let s2 := { s1 with inputValue := "" }
    let response := processMessage s2 message
    addMessage response.text Sender.bot response.quickReplies s2

/-- The `switch(action)` of `handleQuickReply` (`script.js` lines 1205-1226). -/
def quickReplyMessage (action : String) : String :=
  if action = "contact" then "contact information"
  else if action = "skills" then "skills and experience"
  else if action = "projects" then "projects"
  else if action = "certifications" then "certifications"
  else if action = "about" then "about Sibabalwe"
  else "help"

/-- Embedding of `handleQuickReply` (`script.js` lines 1205-1238)
including the delayed bot reply: re-inject the canned phrase as a user
message and append the matched bot response. -/
def handleQuickReply (action : String) (s : ChatbotState) : ChatbotState :=
  let message := quickReplyMessage action
  let s1 := addMessage message Sender.user none s
  let response := processMessage s1 message
  addMessage response.text Sender.bot response.quickReplies s1

/-- Embedding of `hideBadge` (`script.js` lines 994-998): hide the badge. -/
def hideBadge (s : ChatbotState) : ChatbotState :=
  { s with badgeVisible := false }

/-- Embedding of `toggleChatbot` (`script.js` lines 972-981): flip
`isOpen`; when the result is open, record the interaction and hide the
badge. -/
def toggleChatbot (s : ChatbotState) : ChatbotState :=
  let s1 := { s with isOpen := !s.isOpen }
  if s1.isOpen then hideBadge { s1 with hasInteracted := true } else s1

/-- Embedding of `closeChatbot` (`script.js` lines 983-986). -/
def closeChatbot (s : ChatbotState) : ChatbotState :=
  { s with isOpen := false }

/-- Embedding of `showWelcomeNotification` (`script.js` lines 988-992):
display the badge. -/
def showWelcomeNotification (s : ChatbotState) : ChatbotState :=
  { s with badgeVisible := true }

/-- Discrete events the chatbot listeners of `init` (`script.js` lines
946-970) react to.  `escapeKey` is a press of the Escape key: the
chatbot registers no handler for it (the document-level Escape
listeners in `script.js` close the mobile nav menu and the modals, not
the chat widget), so it is part of the alphabet but leaves the chatbot
state untouched.  `welcomeTimer` is the 3-second timer armed by `init`,
and `setInput` models typing into the input field. -/
inductive WidgetEvent where
  | toggleClick
  | closeClick
  | sendClick
  | enterKey
  | escapeKey
  | quickReplyClick (action : String)
  | welcomeTimer
  | setInput (text : String)
deriving Repr, DecidableEq

/-- One step of the widget state machine: dispatch an event to the
handler the source wires up for it. -/
def step (e : WidgetEvent) (s : ChatbotState) : ChatbotState :=
  match e with
  | .toggleClick => toggleChatbot s
  | .closeClick => closeChatbot s
  | .sendClick => sendMessage s
  | .enterKey => sendMessage s
  | .escapeKey => s
  | .quickReplyClick action => handleQuickReply action s
  | .welcomeTimer => if s.hasInteracted then s else showWelcomeNotification s
  | .setInput text => { s with inputValue := text }

/-- Run a sequence of widget events from a state. -/
def steps (es : List WidgetEvent) (s : ChatbotState) : ChatbotState :=
  match es with
  | [] => s
  | e :: rest => steps rest (step e s)

/-- The nine response rules in the fixed declaration order of the spec:
contact, phone, skills, projects, certifications, experience, hire,
greeting, fallback. -/
inductive Rule where
  | contact
  | phone
  | skills
  | projects
  | certifications
  | experience
  | hire
  | greeting
  | fallback
deriving Repr, DecidableEq

/-- Spec-side restatement of the rule table: the keywords that make
each rule match a lowercased input.  The fallback always matches. -/
def specRuleMatches (lm : String) : Rule → Bool
  | .contact => jsIncludes lm "email" || jsIncludes lm "contact" || jsIncludes lm "reach"
  | .phone => jsIncludes lm "phone" || jsIncludes lm "call" || jsIncludes lm "number"
  | .skills => jsIncludes lm "skill" || jsIncludes lm "technology" || jsIncludes lm "tech stack"
  | .projects => jsIncludes lm "project" || jsIncludes lm "work" || jsIncludes lm "portfolio"
  | .certifications => jsIncludes lm "certificate" || jsIncludes lm "certification" || jsIncludes lm "credential"
  | .experience => jsIncludes lm "experience" || jsIncludes lm "background" || jsIncludes lm "about"
  | .hire => jsIncludes lm "hire" || jsIncludes lm "available" || jsIncludes lm "freelance"
  | .greeting => jsIncludes lm "hello" || jsIncludes lm "hi" || jsIncludes lm "hey"
  | .fallback => true

/-- Spec-side first-match-wins selection: the first rule in declaration
order that matches the lowercased input. -/
def specFirstRule (lm : String) : Rule :=
  if specRuleMatches lm .contact then .contact
  else if specRuleMatches lm .phone then .phone
  else if specRuleMatches lm .skills then .skills
  else if specRuleMatches lm .projects then .projects
  else if specRuleMatches lm .certifications then .certifications
  else if specRuleMatches lm .experience then .experience
  else if specRuleMatches lm .hire then .hire
  else if specRuleMatches lm .greeting then .greeting
  else .fallback

/-- The canned response each rule produces. -/
def specRuleResponse (s : ChatbotState) : Rule → Response
  | .contact => contactResponse s
  | .phone => phoneResponse s
  | .skills => skillsResponse s
  | .projects => projectsResponse s
  | .certifications => certificationsResponse s
  | .experience => experienceResponse s
  | .hire => hireResponse s
  | .greeting => greetingResponse s
  | .fallback => defaultResponse s

/-- All 24 keywords enumerated across rules 1-8. -/
def allKeywords : List String :=
  [ "email", "contact", "reach", "phone", "call", "number"
  , "skill", "technology", "tech stack", "project", "work", "portfolio"
  , "certificate", "certification", "credential"
  , "experience", "background", "about"
  , "hire", "available", "freelance", "hello", "hi", "hey" ]

/-- The keywords of rules 1 through 6 (everything before the hire rule). -/
def rules1to6Keywords : List String :=
  [ "email", "contact", "reach", "phone", "call", "number"
  , "skill", "technology", "tech stack", "project", "work", "portfolio"
  , "certificate", "certification", "credential"
  , "experience", "background", "about" ]

/-- The keywords of rules 1 through 7 (everything before the greeting rule). -/
def rules1to7Keywords : List String :=
  rules1to6Keywords ++ ["hire", "available", "freelance"]

/-! ## Helper lemmas -/

theorem data_mk (l : List Char) : (String.mk l).data = l := rfl

theorem data_append (a b : String) : (a ++ b).data = a.data ++ b.data := rfl

theorem append_ne_empty_left (a b : String) (h : a ≠ "") : a ++ b ≠ "" := by
  intro hc
  apply h
  have hd : a.data ++ b.data = ([] : List Char) := congrArg String.data hc
  have ha : a.data = [] := (List.append_eq_nil.mp hd).1
  cases a with
  | mk l => cases ha; rfl

theorem toNat_ofNat_of_lt {n : Nat} (h : n < 55296) : (Char.ofNat n).toNat = n := by
  rw [Char.ofNat, dif_pos (Or.inl h)]
  rfl

theorem toLower_toLower (c : Char) : Char.toLower (Char.toLower c) = Char.toLower c := by
  by_cases h : c.toNat ≥ 65 ∧ c.toNat ≤ 90
  · have h1 : Char.toLower c = Char.ofNat (c.toNat + 32) := by
      simp only [Char.toLower]
      rw [if_pos h]
    have ht : (Char.ofNat (c.toNat + 32)).toNat = c.toNat + 32 :=
      toNat_ofNat_of_lt (by omega)
    have h2 : ¬((Char.ofNat (c.toNat + 32)).toNat ≥ 65 ∧ (Char.ofNat (c.toNat + 32)).toNat ≤ 90) := by
      rw [ht]
      omega
    rw [h1]
    simp only [Char.toLower]
    rw [if_neg h2]
  · have h1 : Char.toLower c = c := by
      simp only [Char.toLower]
      rw [if_neg h]
    rw [h1, h1]

theorem jsToLower_idem (s : String) : jsToLower (jsToLower s) = jsToLower s := by
  simp only [jsToLower, data_mk]
  congr 1
  rw [List.map_map]
  exact List.map_congr_left (fun a _ => by
    simp only [Function.comp_apply, toLower_toLower])

theorem processMessage_eq_of_kb (s₁ s₂ : ChatbotState) (m : String)
    (h : s₁.knowledgeBase = s₂.knowledgeBase) :
    processMessage s₁ m = processMessage s₂ m := by
  simp only [processMessage, contactResponse, phoneResponse, skillsResponse, projectsResponse,
    certificationsResponse, experienceResponse, hireResponse, greetingResponse,
    defaultResponse, h]

theorem sendMessage_flags (s : ChatbotState) :
    (sendMessage s).isOpen = s.isOpen ∧ (sendMessage s).hasInteracted = s.hasInteracted ∧
    (sendMessage s).badgeVisible = s.badgeVisible ∧
    (sendMessage s).knowledgeBase = s.knowledgeBase := by
  simp only [sendMessage, addMessage]
  split <;> simp

theorem handleQuickReply_flags (a : String) (s : ChatbotState) :
    (handleQuickReply a s).isOpen = s.isOpen ∧
    (handleQuickReply a s).hasInteracted = s.hasInteracted ∧
    (handleQuickReply a s).badgeVisible = s.badgeVisible ∧
    (handleQuickReply a s).knowledgeBase = s.knowledgeBase := by
  simp [handleQuickReply, addMessage]

theorem step_knowledgeBase (e : WidgetEvent) (s : ChatbotState) :
    (step e s).knowledgeBase = s.knowledgeBase := by
  cases e with
  | toggleClick =>
      simp only [step, toggleChatbot]
      split <;> rfl
  | closeClick => rfl
  | sendClick => exact (sendMessage_flags s).2.2.2
  | enterKey => exact (sendMessage_flags s).2.2.2
  | escapeKey => rfl
  | quickReplyClick a => exact (handleQuickReply_flags a s).2.2.2
  | welcomeTimer =>
      simp only [step, showWelcomeNotification]
      split <;> rfl
  | setInput t => rfl

theorem step_hasInteracted (e : WidgetEvent) {s : ChatbotState}
    (h : s.hasInteracted = true) : (step e s).hasInteracted = true := by
  cases e with
  | toggleClick =>
      simp only [step, toggleChatbot]
      split
      · rfl
      · exact h
  | closeClick => exact h
  | sendClick => exact (sendMessage_flags s).2.1.trans h
  | enterKey => exact (sendMessage_flags s).2.1.trans h
  | escapeKey => exact h
  | quickReplyClick a => exact (handleQuickReply_flags a s).2.1.trans h
  | welcomeTimer =>
      simp only [step, showWelcomeNotification]
      split
      · exact h
      · exact h
  | setInput t => exact h

theorem step_badge (e : WidgetEvent) {s : ChatbotState}
    (h1 : s.hasInteracted = true) (h2 : s.badgeVisible = false) :
    (step e s).badgeVisible = false := by
  cases e with
  | toggleClick =>
      simp only [step, toggleChatbot]
      split
      · rfl
      · exact h2
  | closeClick => exact h2
  | sendClick => exact (sendMessage_flags s).2.2.1.trans h2
  | enterKey => exact (sendMessage_flags s).2.2.1.trans h2
  | escapeKey => exact h2
  | quickReplyClick a => exact (handleQuickReply_flags a s).2.2.1.trans h2
  | welcomeTimer =>
      simp only [step]
      split
      · exact h2
      · rename_i hcond
        exact absurd h1 hcond
  | setInput t => exact h2

theorem steps_badge (es : List WidgetEvent) {s : ChatbotState}
    (h1 : s.hasInteracted = true) (h2 : s.badgeVisible = false) :
    (steps es s).badgeVisible = false := by
  induction es generalizing s with
  | nil => exact h2
  | cons e rest ih => exact ih (step_hasInteracted e h1) (step_badge e h1 h2)

/-! ## Claim theorems -/

/-- C9: the matcher lowercases its argument itself, so for every input
`m`, `processMessage` on `m` and on the lowercased form of `m` return
the same result — callers need not pre-lowercase. -/
theorem respond_case_insensitive (s : ChatbotState) (m : String) :
    processMessage s m = processMessage s (jsToLower m) := by
  simp only [processMessage, jsToLower_idem]

/-- C4: the responder is deterministic and pure — its output depends
only on the input text and the knowledge base (two states agreeing on
the knowledge base yield equal responses, so repeated calls agree), and
no widget event mutates the knowledge base. -/
theorem respond_pure (s₁ s₂ : ChatbotState) (e : WidgetEvent) (m : String)
    (h : s₁.knowledgeBase = s₂.knowledgeBase) :
    processMessage s₁ m = processMessage s₂ m ∧
    (step e s₁).knowledgeBase = s₁.knowledgeBase :=
  ⟨processMessage_eq_of_kb s₁ s₂ m h, step_knowledgeBase e s₁⟩

theorem respond_pure_witness :
    processMessage initState "hello" = processMessage initState "hello" ∧
    (step WidgetEvent.toggleClick initState).knowledgeBase = initState.knowledgeBase :=
  respond_pure initState initState WidgetEvent.toggleClick "hello" rfl

/-- C6: when the input field trims to the empty string, `sendMessage`
is a no-op — the state, and in particular the transcript, is unchanged
and no error is signalled. -/
theorem empty_input_noop (s : ChatbotState) (h : jsTrim s.inputValue = "") :
    sendMessage s = s ∧ (sendMessage s).messages = s.messages := by
  have hs : sendMessage s = s := by
    simp [sendMessage, h]
  exact ⟨hs, by rw [hs]⟩

theorem empty_input_noop_witness :
    (sendMessage { initState with inputValue := "   " } =
      { initState with inputValue := "   " }) ∧
    (sendMessage { initState with inputValue := "   " }).messages =
      ({ initState with inputValue := "   " } : ChatbotState).messages :=
  empty_input_noop { initState with inputValue := "   " } (by decide)

/-- C2: for every non-empty input the matcher returns a response whose
text is non-empty and whose quick-reply list is non-null — the
unconditional fallback branch makes the responder total. -/
theorem respond_total (s : ChatbotState) (m : String) (_h : m ≠ "") :
    (processMessage s m).text ≠ "" ∧ (processMessage s m).quickReplies ≠ none := by
  simp only [processMessage]
  split_ifs <;>
    refine ⟨?_, by simp [contactResponse, phoneResponse, skillsResponse, projectsResponse,
      certificationsResponse, experienceResponse, hireResponse, greetingResponse,
      defaultResponse]⟩ <;>
    · simp only [contactResponse, phoneResponse, skillsResponse, projectsResponse,
        certificationsResponse, experienceResponse, hireResponse, greetingResponse,
        defaultResponse]
      repeat' apply append_ne_empty_left
      decide

theorem respond_total_witness :
    (processMessage initState "banana").text ≠ "" ∧
    (processMessage initState "banana").quickReplies ≠ none :=
  respond_total initState "banana" (by decide)

/-- C1: the matcher resolves every input to the FIRST rule, in the
fixed declaration order contact, phone, skills, projects,
certifications, experience, hire, greeting, fallback, whose keywords
occur in the lowercased input; in particular an input matching both the
contact rule and the projects rule receives the contact-card
response. -/
theorem respond_first_match :
    (∀ (s : ChatbotState) (m : String),
        processMessage s m = specRuleResponse s (specFirstRule (jsToLower m))) ∧
    (∀ (s : ChatbotState) (m : String),
        specRuleMatches (jsToLower m) Rule.contact = true →
        specRuleMatches (jsToLower m) Rule.projects = true →
        processMessage s m = contactResponse s) := by
  constructor
  · intro s m
    simp only [processMessage, specFirstRule, specRuleMatches]
    split_ifs <;> simp [specRuleResponse]
  · intro s m h1 _h4
    simp only [specRuleMatches] at h1
    simp only [processMessage]
    rw [if_pos h1]

theorem respond_first_match_witness :
    processMessage initState "show me your project and contact email" =
      contactResponse initState :=
  respond_first_match.2 initState "show me your project and contact email"
    (by decide) (by decide)

/-- C3: an input whose lowercased form contains none of the 24
enumerated keywords falls through every rule and receives the
capability-menu fallback, whose quick replies are the contact,
certifications and projects buttons. -/
theorem fallback_coverage (s : ChatbotState) (m : String)
    (h : ∀ k ∈ allKeywords, jsIncludes (jsToLower m) k = false) :
    processMessage s m = defaultResponse s ∧
    (processMessage s m).quickReplies =
      some [ { text := "Contact Info", action := "contact" }
           , { text := "Certifications", action := "certifications" }
           , { text := "Projects", action := "projects" } ] := by
  have h1 := h "email" (by decide)
  have h2 := h "contact" (by decide)
  have h3 := h "reach" (by decide)
  have h4 := h "phone" (by decide)
  have h5 := h "call" (by decide)
  have h6 := h "number" (by decide)
  have h7 := h "skill" (by decide)
  have h8 := h "technology" (by decide)
  have h9 := h "tech stack" (by decide)
  have h10 := h "project" (by decide)
  have h11 := h "work" (by decide)
  have h12 := h "portfolio" (by decide)
  have h13 := h "certificate" (by decide)
  have h14 := h "certification" (by decide)
  have h15 := h "credential" (by decide)
  have h16 := h "experience" (by decide)
  have h17 := h "background" (by decide)
  have h18 := h "about" (by decide)
  have h19 := h "hire" (by decide)
  have h20 := h "available" (by decide)
  have h21 := h "freelance" (by decide)
  have h22 := h "hello" (by decide)
  have h23 := h "hi" (by decide)
  have h24 := h "hey" (by decide)
  have hpm : processMessage s m = defaultResponse s := by
    simp only [processMessage]
    rw [if_neg (by simp [h1, h2, h3]), if_neg (by simp [h4, h5, h6]),
      if_neg (by simp [h7, h8, h9]), if_neg (by simp [h10, h11, h12]),
      if_neg (by simp [h13, h14, h15]), if_neg (by simp [h16, h17, h18]),
      if_neg (by simp [h19, h20, h21]), if_neg (by simp [h22, h23, h24])]
  exact ⟨hpm, by rw [hpm]; rfl⟩

theorem fallback_coverage_witness :
    processMessage initState "banana" = defaultResponse initState ∧
    (processMessage initState "banana").quickReplies =
      some [ { text := "Contact Info", action := "contact" }
           , { text := "Certifications", action := "certifications" }
           , { text := "Projects", action := "projects" } ] :=
  fallback_coverage initState "banana" (by decide)

/-- C5: the quick-reply round trip — clicking the quick reply tagged
`skills` appends the same bot message as typing the text `skills and
experience` into the input and submitting it; both routes run the same
matcher on the same knowledge base. -/
theorem quickreply_roundtrip (s : ChatbotState) :
    (handleQuickReply "skills" s).messages.getLast? =
      (sendMessage { s with inputValue := "skills and experience" }).messages.getLast? := by
  have hq : quickReplyMessage "skills" = "skills and experience" := by decide
  have ht : jsTrim "skills and experience" = "skills and experience" := by decide
  have hne : ¬(("skills and experience" : String) = "") := by decide
  simp only [handleQuickReply, sendMessage, hq, ht, addMessage]
  rw [if_neg hne]
  simp only [List.getLast?_concat]
  rw [processMessage_eq_of_kb
    (ChatbotState.mk s.isOpen s.hasInteracted s.badgeVisible
      (s.messages ++ [Message.mk "skills and experience" Sender.user none])
      s.inputValue s.knowledgeBase)
    (ChatbotState.mk s.isOpen s.hasInteracted s.badgeVisible
      (s.messages ++ [Message.mk "skills and experience" Sender.user none])
      "" s.knowledgeBase)
    "skills and experience" rfl]

/-- C7 counterexample: the claim that an Escape key press closes the
open widget is false — from the open state an Escape key press leaves
the widget open, because the chatbot registers no Escape handler. -/
theorem escape_does_not_close :
    (toggleChatbot initState).isOpen = true ∧
    (step WidgetEvent.escapeKey (toggleChatbot initState)).isOpen = true := by
  exact ⟨rfl, rfl⟩

/-- C7 (amended): while the widget is open, the only events that close
it are the toggle click and the explicit close click; every other
event, including an Escape key press, leaves it open. -/
theorem open_close_transitions (s : ChatbotState) (e : WidgetEvent) (h : s.isOpen = true) :
    ((step e s).isOpen = false ↔
      e = WidgetEvent.toggleClick ∨ e = WidgetEvent.closeClick) := by
  cases e with
  | toggleClick => simp [step, toggleChatbot, h]
  | closeClick => simp [step, closeChatbot]
  | sendClick => simp [step, (sendMessage_flags s).1, h]
  | enterKey => simp [step, (sendMessage_flags s).1, h]
  | escapeKey => simp [step, h]
  | quickReplyClick a => simp [step, (handleQuickReply_flags a s).1, h]
  | welcomeTimer =>
      simp only [step]
      split <;> simp [showWelcomeNotification, h]
  | setInput t => simp [step, h]

theorem open_close_transitions_witness :
    (step WidgetEvent.closeClick (toggleChatbot initState)).isOpen = false ↔
      WidgetEvent.closeClick = WidgetEvent.toggleClick ∨
        WidgetEvent.closeClick = WidgetEvent.closeClick :=
  open_close_transitions (toggleChatbot initState) WidgetEvent.closeClick rfl

/-- C8: once the widget is toggled open from a closed state, the
attention badge stays hidden through every later sequence of widget
events — no closed-to-open cycle and no pending welcome timer
re-displays it. -/
theorem badge_suppression (s : ChatbotState) (es : List WidgetEvent) (h : s.isOpen = false) :
    (steps es (toggleChatbot s)).badgeVisible = false := by
  have h1 : (toggleChatbot s).hasInteracted = true := by
    simp [toggleChatbot, hideBadge, h]
  have h2 : (toggleChatbot s).badgeVisible = false := by
    simp [toggleChatbot, hideBadge, h]
  exact steps_badge es h1 h2

theorem badge_suppression_witness :
    (steps [WidgetEvent.welcomeTimer, WidgetEvent.toggleClick, WidgetEvent.toggleClick,
        WidgetEvent.welcomeTimer] (toggleChatbot initState)).badgeVisible = false :=
  badge_suppression initState
    [WidgetEvent.welcomeTimer, WidgetEvent.toggleClick, WidgetEvent.toggleClick,
      WidgetEvent.welcomeTimer] rfl

/-- C10: keyword matching is raw substring containment — an input whose
lowercased form contains `hi` inside another word (such as `this`) and
no keyword of rules 1 through 7 receives the greeting response rather
than the fallback menu, and an input containing `hire` with no keyword
of rules 1 through 6 receives the hire response because that rule is
checked before the greeting rule. -/
theorem substring_matching (s : ChatbotState) (m : String) :
    (jsIncludes (jsToLower m) "hi" = true →
      (∀ k ∈ rules1to7Keywords, jsIncludes (jsToLower m) k = false) →
      processMessage s m = greetingResponse s) ∧
    (jsIncludes (jsToLower m) "hire" = true →
      (∀ k ∈ rules1to6Keywords, jsIncludes (jsToLower m) k = false) →
      processMessage s m = hireResponse s) := by
  constructor
  · intro hhi hk
    have h1 := hk "email" (by decide)
    have h2 := hk "contact" (by decide)
    have h3 := hk "reach" (by decide)
    have h4 := hk "phone" (by decide)
    have h5 := hk "call" (by decide)
    have h6 := hk "number" (by decide)
    have h7 := hk "skill" (by decide)
    have h8 := hk "technology" (by decide)
    have h9 := hk "tech stack" (by decide)
    have h10 := hk "project" (by decide)
    have h11 := hk "work" (by decide)
    have h12 := hk "portfolio" (by decide)
    have h13 := hk "certificate" (by decide)
    have h14 := hk "certification" (by decide)
    have h15 := hk "credential" (by decide)
    have h16 := hk "experience" (by decide)
    have h17 := hk "background" (by decide)
    have h18 := hk "about" (by decide)
    have h19 := hk "hire" (by decide)
    have h20 := hk "available" (by decide)
    have h21 := hk "freelance" (by decide)
    simp only [processMessage]
    rw [if_neg (by simp [h1, h2, h3]), if_neg (by simp [h4, h5, h6]),
      if_neg (by simp [h7, h8, h9]), if_neg (by simp [h10, h11, h12]),
      if_neg (by simp [h13, h14, h15]), if_neg (by simp [h16, h17, h18]),
      if_neg (by simp [h19, h20, h21]), if_pos (by simp [hhi])]
  · intro hhire hk
    have h1 := hk "email" (by decide)
    have h2 := hk "contact" (by decide)
    have h3 := hk "reach" (by decide)
    have h4 := hk "phone" (by decide)
    have h5 := hk "call" (by decide)
    have h6 := hk "number" (by decide)
    have h7 := hk "skill" (by decide)
    have h8 := hk "technology" (by decide)
    have h9 := hk "tech stack" (by decide)
    have h10 := hk "project" (by decide)
    have h11 := hk "work" (by decide)
    have h12 := hk "portfolio" (by decide)
    have h13 := hk "certificate" (by decide)
    have h14 := hk "certification" (by decide)
    have h15 := hk "credential" (by decide)
    have h16 := hk "experience" (by decide)
    have h17 := hk "background" (by decide)
    have h18 := hk "about" (by decide)
    simp only [processMessage]
    rw [if_neg (by simp [h1, h2, h3]), if_neg (by simp [h4, h5, h6]),
      if_neg (by simp [h7, h8, h9]), if_neg (by simp [h10, h11, h12]),
      if_neg (by simp [h13, h14, h15]), if_neg (by simp [h16, h17, h18]),
      if_pos (by simp [hhire])]

theorem substring_matching_witness :
    processMessage initState "this" = greetingResponse initState ∧
    processMessage initState "hire" = hireResponse initState :=
  ⟨(substring_matching initState "this").1 (by decide) (by decide),
   (substring_matching initState "hire").2 (by decide) (by decide)⟩

end Portfolio
